import Mathlib

/-
Verification of the window-capture and scan-loop core of the Automatic
Poker Odds Calculator (calculator.py).  The Python source is shallowly
embedded: every effectful step (subprocess invocation, temp-file system
state, screen grabs, HTTP traffic) is made explicit as an environment
value, and each function of the source becomes a total Lean function on
those environments.  Instrumentation fields (which capture methods ran,
whether a temp file is left on disk) record the effects the source
performs, so that claims about invocation order and resource cleanup can
be stated.
-/

/-- A decoded bitmap.  Only the dimensions matter for the properties
proved here; identity of distinct bitmaps is preserved by the pair. -/
structure Image where
  width : Nat
  height : Nat
  deriving DecidableEq, Repr

/-- WindowInfo dataclass of the source: platform id, title and bounds. -/
structure WindowInfo where
  id : String
  title : String
  x : Int
  y : Int
  width : Int
  height : Int
  deriving DecidableEq, Repr

/-
Keyboard listener (source: keyboard_listener).  The listener is the only
writer of the module-level opponents counter; one processed key event is
one step.
-/

/-- A raw key event as the listener distinguishes them: the UP key, the
DOWN key, or anything else. -/
inductive Key where
  | up
  | down
  | other
  deriving DecidableEq, Repr

/-- One step of keyboard_listener: on UP increment when below 9, on DOWN
decrement when above 1, otherwise leave the counter unchanged. -/
def keyStep (opponents : Int) (key : Key) : Int :=
  if key = Key.up ∧ opponents < 9 then opponents + 1
  else if key = Key.down ∧ opponents > 1 then opponents - 1
  else opponents

/-- Initial value of the module-level opponents counter in the source. -/
def initialOpponents : Int := 1

/-- The counter after the listener has processed a finite sequence of key
events, starting from the initial value 1. -/
def runKeys (keys : List Key) : Int := keys.foldl keyStep initialOpponents

/-
Scan-loop tick timing (source: main, end of the while body).  The source
computes elapsed = now - loop_start, sleep_time = max(0, scan_interval -
elapsed), and calls time.sleep(sleep_time) only when sleep_time > 0, so
the slept duration of a tick is the value below.
-/

/-- Sleep duration at the end of one scan tick, as computed by main. -/
def tickSleep (scan_interval elapsed : ℚ) : ℚ :=
  let sleep_time := max 0 (scan_interval - elapsed)
  if sleep_time > 0 then sleep_time else 0

/-
Helper lemmas for the keyboard counter.
-/

theorem keyStep_mem (v : Int) (k : Key) (h1 : 1 ≤ v) (h9 : v ≤ 9) :
    1 ≤ keyStep v k ∧ keyStep v k ≤ 9 := by
  unfold keyStep
  rcases k <;> simp <;> omega

theorem foldl_keyStep_mem (keys : List Key) :
    ∀ v : Int, 1 ≤ v → v ≤ 9 →
      1 ≤ keys.foldl keyStep v ∧ keys.foldl keyStep v ≤ 9 := by
  induction keys with
  | nil => intro v h1 h9; exact ⟨h1, h9⟩
  | cons k rest ih =>
    intro v h1 h9
    have hk := keyStep_mem v k h1 h9
    simpa [List.foldl] using ih (keyStep v k) hk.1 hk.2

/-- Claim C2: starting from the initial value 1, the shared opponents
counter stays within the interval from 1 to 9 for every finite sequence
of key events; an UP key increments it exactly when it is below 9, a
DOWN key decrements it exactly when it is above 1, and every other key
leaves it unchanged. -/
theorem opponents_bounded :
    (∀ keys : List Key, 1 ≤ runKeys keys ∧ runKeys keys ≤ 9) ∧
    (∀ v : Int,
      (v < 9 → keyStep v Key.up = v + 1) ∧
      (9 ≤ v → keyStep v Key.up = v) ∧
      (1 < v → keyStep v Key.down = v - 1) ∧
      (v ≤ 1 → keyStep v Key.down = v) ∧
      keyStep v Key.other = v) := by
  constructor
  · intro keys
    exact foldl_keyStep_mem keys initialOpponents (by decide) (by decide)
  · intro v
    refine ⟨?_, ?_, ?_, ?_, ?_⟩ <;> unfold keyStep <;> intros <;> simp <;> omega

theorem opponents_bounded_witness :
    (1 ≤ runKeys [Key.up, Key.up, Key.down, Key.other] ∧
      runKeys [Key.up, Key.up, Key.down, Key.other] ≤ 9) ∧
    keyStep 3 Key.up = 4 ∧ keyStep 3 Key.down = 2 :=
  ⟨opponents_bounded.1 [Key.up, Key.up, Key.down, Key.other],
   (opponents_bounded.2 3).1 (by decide),
   (opponents_bounded.2 3).2.2.1 (by decide)⟩

/-
Capture strategies (source: LinuxWindowManager.capture_window and
MacWindowManager.capture_window / _capture_by_bounds).
-/

/-- Outcome of one subprocess.run invocation of a helper tool: it can
raise TimeoutExpired, raise FileNotFoundError when the tool is absent,
or finish with a return code. -/
inductive RunOutcome where
  | timeout
  | toolMissing
  | ret (code : Int)
  deriving DecidableEq, Repr

/-- Environment of one helper-tool method (method 1, ImageMagick, or
method 2, scrot): the subprocess outcome, and the result of opening and
loading the written file when that point is reached (none models an
exception raised by the image library). -/
structure HelperEnv where
  run : RunOutcome
  load : Option Image
  deriving DecidableEq, Repr

/-- Result of one helper-tool method: the image it returned, if any, and
whether its scoped temporary file is still on disk afterwards. -/
structure HelperResult where
  image : Option Image
  tempLeft : Bool
  deriving DecidableEq, Repr

/-- One helper-tool capture method of LinuxWindowManager.capture_window.
The temp file is created first (delete=False).  A raised TimeoutExpired
or FileNotFoundError jumps to the except clause, which passes without
unlinking, so the file stays.  On return code 0 the file is opened and
loaded; success unlinks and returns the image, while a raised load error
again reaches the except clause with the file still present.  On a
nonzero return code the file is unlinked and the method yields nothing.
Methods 1 and 2 of the source are two instances of this one block, run
against different commands. -/
def runHelper (env : HelperEnv) : HelperResult :=
  match env.run with
  | RunOutcome.timeout => ⟨none, true⟩
  | RunOutcome.toolMissing => ⟨none, true⟩
  | RunOutcome.ret code =>
    if code = 0 then
      match env.load with
      | some img => ⟨some img, false⟩
      | none => ⟨none, true⟩
    else ⟨none, false⟩

/-- A rectangular screen region handed to mss.grab. -/
structure Region where
  left : Int
  top : Int
  width : Int
  height : Int
  deriving DecidableEq, Repr

/-- Dimensions of the full screen, sct.monitors[0]. -/
structure Screen where
  width : Int
  height : Int
  deriving DecidableEq, Repr

/-- Environment of an mss-based grab: the screen dimensions and the grab
primitive itself; a grab returning none models a raised exception. -/
structure MssEnv where
  screen : Screen
  grab : Region → Option Image

/-- Clamped region computed by method 3 of
LinuxWindowManager.capture_window: offsets are clamped below by 0, width
and height are clamped so the region stays inside the screen, and a
non-positive width or height aborts with no grab at all. -/
def linux_clamped_region (w : WindowInfo) (screen : Screen) : Option Region :=
  let x := max 0 w.x
  let y := max 0 w.y
  let width := min w.width (screen.width - x)
  let height := min w.height (screen.height - y)
  if width ≤ 0 ∨ height ≤ 0 then none
  else some ⟨x, y, width, height⟩

/-- Method 3 of LinuxWindowManager.capture_window: grab the clamped
region, or fail when the clamped region is empty. -/
def linux_capture_bounds (w : WindowInfo) (env : MssEnv) : Option Image :=
  match linux_clamped_region w env.screen with
  | none => none
  | some r => env.grab r

/-- Region used by MacWindowManager._capture_by_bounds: the stored
window bounds, passed to mss.grab with no clamping of any kind. -/
def mac_bounds_region (w : WindowInfo) : Region :=
  ⟨w.x, w.y, w.width, w.height⟩

/-- MacWindowManager._capture_by_bounds: grab the raw window bounds. -/
def mac_capture_by_bounds (w : WindowInfo) (env : MssEnv) : Option Image :=
  env.grab (mac_bounds_region w)

/-- The three methods of the Linux capture chain, in declared order. -/
inductive Method where
  | magick
  | scrot
  | mssBounds
  deriving DecidableEq, Repr

/-- Environment for one Linux capture attempt: one helper environment
per helper method plus the mss environment. -/
structure LinuxCaptureEnv where
  m1 : HelperEnv
  m2 : HelperEnv
  mss : MssEnv

/-- Result of LinuxWindowManager.capture_window, instrumented with the
list of methods that actually ran and the temp-file residue of each
helper method (false when the method did not run or cleaned up). -/
structure LinuxCaptureResult where
  image : Option Image
  invoked : List Method
  temp1Left : Bool
  temp2Left : Bool
  deriving Repr

/-- LinuxWindowManager.capture_window: try method 1 (ImageMagick), on
failure method 2 (scrot, after a best-effort focus), on failure method 3
(mss with bounds clamping); the first method that returns an image ends
the attempt. -/
def linux_capture_window (w : WindowInfo) (env : LinuxCaptureEnv) : LinuxCaptureResult :=
  match (runHelper env.m1).image with
  | some img => ⟨some img, [Method.magick], (runHelper env.m1).tempLeft, false⟩
  | none =>
    match (runHelper env.m2).image with
    | some img =>
      ⟨some img, [Method.magick, Method.scrot],
        (runHelper env.m1).tempLeft, (runHelper env.m2).tempLeft⟩
    | none =>
      ⟨linux_capture_bounds w env.mss,
        [Method.magick, Method.scrot, Method.mssBounds],
        (runHelper env.m1).tempLeft, (runHelper env.m2).tempLeft⟩

/-- Environment for one Mac capture attempt: the result of the native
CGWindowListCreateImage path (none covers a null image ref and any
conversion exception) and the mss environment of the bounds fallback. -/
structure MacCaptureEnv where
  native : Option Image
  mss : MssEnv

/-- Result of MacWindowManager.capture_window, instrumented with whether
the bounds-based fallback ran. -/
structure MacCaptureResult where
  image : Option Image
  boundsInvoked : Bool
  deriving Repr

/-- MacWindowManager.capture_window: native compositor capture first;
only when it yields nothing does the bounds-based fallback run. -/
def mac_capture_window (w : WindowInfo) (env : MacCaptureEnv) : MacCaptureResult :=
  match env.native with
  | some img => ⟨some img, false⟩
  | none => ⟨mac_capture_by_bounds w env.mss, true⟩

/-- Claim C1: strategies run in declared order and the first one that
returns a bitmap wins.  On Linux: if method 1 returns an image the
attempt ends with it and neither later method runs; if method 1 fails
and method 2 (the second helper tool) returns an image, that image is
the result and the bounds-based last-resort method never runs.  On Mac:
if the native capture returns an image, the bounds fallback never
runs. -/
theorem capture_chain_first_wins (w : WindowInfo) (env : LinuxCaptureEnv)
    (menv : MacCaptureEnv) (img : Image) :
    ((runHelper env.m1).image = some img →
      (linux_capture_window w env).image = some img ∧
      (linux_capture_window w env).invoked = [Method.magick]) ∧
    ((runHelper env.m1).image = none → (runHelper env.m2).image = some img →
      (linux_capture_window w env).image = some img ∧
      Method.mssBounds ∉ (linux_capture_window w env).invoked) ∧
    (menv.native = some img →
      (mac_capture_window w menv).image = some img ∧
      (mac_capture_window w menv).boundsInvoked = false) := by
  refine ⟨?_, ?_, ?_⟩
  · intro h1
    simp [linux_capture_window, h1]
  · intro h1 h2
    simp [linux_capture_window, h1, h2]
  · intro hn
    simp [mac_capture_window, hn]

theorem capture_chain_first_wins_witness :
    (runHelper (HelperEnv.mk RunOutcome.timeout none)).image = none ∧
    (runHelper (HelperEnv.mk (RunOutcome.ret 0) (some ⟨200, 150⟩))).image =
      some ⟨200, 150⟩ ∧
    ((linux_capture_window ⟨"0x1", "Poker", 0, 0, 200, 150⟩
        ⟨HelperEnv.mk RunOutcome.timeout none,
         HelperEnv.mk (RunOutcome.ret 0) (some ⟨200, 150⟩),
         MssEnv.mk ⟨1920, 1080⟩ (fun _ => none)⟩).image = some ⟨200, 150⟩ ∧
      Method.mssBounds ∉
        (linux_capture_window ⟨"0x1", "Poker", 0, 0, 200, 150⟩
          ⟨HelperEnv.mk RunOutcome.timeout none,
           HelperEnv.mk (RunOutcome.ret 0) (some ⟨200, 150⟩),
           MssEnv.mk ⟨1920, 1080⟩ (fun _ => none)⟩).invoked) :=
  ⟨by decide, by decide,
   (capture_chain_first_wins ⟨"0x1", "Poker", 0, 0, 200, 150⟩
      ⟨HelperEnv.mk RunOutcome.timeout none,
       HelperEnv.mk (RunOutcome.ret 0) (some ⟨200, 150⟩),
       MssEnv.mk ⟨1920, 1080⟩ (fun _ => none)⟩
      ⟨some ⟨100, 100⟩, MssEnv.mk ⟨1920, 1080⟩ (fun _ => none)⟩
      ⟨200, 150⟩).2.1 (by decide) (by decide)⟩

/-- Claim C4: the code leaks the scoped temporary file when the helper
subprocess times out.  This theorem evaluates the embedded helper method
at the failing input: a TimeoutExpired run leaves the temp file on disk
(tempLeft is true) while returning no image; for contrast, the success
path and the nonzero-exit path both delete the file. -/
theorem helper_temp_file_leak_on_timeout :
    (runHelper (HelperEnv.mk RunOutcome.timeout none)).tempLeft = true ∧
    (runHelper (HelperEnv.mk RunOutcome.timeout none)).image = none ∧
    (runHelper (HelperEnv.mk (RunOutcome.ret 0) (some ⟨200, 150⟩))).tempLeft = false ∧
    (runHelper (HelperEnv.mk (RunOutcome.ret 1) none)).tempLeft = false := by
  decide

/-- Claim C8 counterexample: the Mac bounds-based fallback does not
clamp.  For a window whose stored x offset is -50, _capture_by_bounds
hands mss.grab the raw region with a negative left offset and the grab
succeeds, contradicting the claim that on every platform the
bounds-based region never has negative offsets. -/
theorem mac_bounds_unclamped_counterexample :
    mac_bounds_region ⟨"7", "Poker: Table", -50, 10, 200, 150⟩ =
      ⟨-50, 10, 200, 150⟩ ∧
    (mac_bounds_region ⟨"7", "Poker: Table", -50, 10, 200, 150⟩).left < 0 ∧
    mac_capture_by_bounds ⟨"7", "Poker: Table", -50, 10, 200, 150⟩
      (MssEnv.mk ⟨1920, 1080⟩ (fun r => some ⟨r.width.toNat, r.height.toNat⟩)) =
      some ⟨200, 150⟩ := by
  refine ⟨rfl, by decide, rfl⟩

/-- Claim C8 as amended: on Linux the bounds-based last-resort method is
clamped — the region it grabs has non-negative offsets, positive extent,
and lies inside the screen, and an empty clamped region yields a failure
with no grab; on Mac the bounds fallback passes the raw stored window
bounds to the grab unclamped. -/
theorem bounds_clamping_amended (w : WindowInfo) (s : Screen) (r : Region)
    (env : MssEnv) :
    (linux_clamped_region w s = some r →
      0 ≤ r.left ∧ 0 ≤ r.top ∧ 0 < r.width ∧ 0 < r.height ∧
      r.left + r.width ≤ s.width ∧ r.top + r.height ≤ s.height) ∧
    (linux_clamped_region w env.screen = none → linux_capture_bounds w env = none) ∧
    mac_bounds_region w = ⟨w.x, w.y, w.width, w.height⟩ := by
  refine ⟨?_, ?_, rfl⟩
  · intro h
    simp only [linux_clamped_region] at h
    split_ifs at h with hempty
    rw [Option.some_inj] at h
    subst h
    dsimp only
    push_neg at hempty
    refine ⟨le_max_left 0 w.x, le_max_left 0 w.y, hempty.1, hempty.2, ?_, ?_⟩
    · have : min w.width (s.width - max 0 w.x) ≤ s.width - max 0 w.x :=
        min_le_right _ _
      omega
    · have : min w.height (s.height - max 0 w.y) ≤ s.height - max 0 w.y :=
        min_le_right _ _
      omega
  · intro h
    unfold linux_capture_bounds
    rw [h]

theorem bounds_clamping_amended_witness :
    linux_clamped_region ⟨"1", "t", -5, -7, 100, 100⟩ ⟨50, 40⟩ =
      some ⟨0, 0, 50, 40⟩ ∧
    (0 ≤ (Region.mk 0 0 50 40).left ∧ 0 ≤ (Region.mk 0 0 50 40).top ∧
      0 < (Region.mk 0 0 50 40).width ∧ 0 < (Region.mk 0 0 50 40).height ∧
      (Region.mk 0 0 50 40).left + (Region.mk 0 0 50 40).width ≤ (Screen.mk 50 40).width ∧
      (Region.mk 0 0 50 40).top + (Region.mk 0 0 50 40).height ≤ (Screen.mk 50 40).height) :=
  ⟨by decide,
   (bounds_clamping_amended ⟨"1", "t", -5, -7, 100, 100⟩ ⟨50, 40⟩ ⟨0, 0, 50, 40⟩
      (MssEnv.mk ⟨50, 40⟩ (fun _ => none))).1 (by decide)⟩

/-
API client (source: PokerAnalysis, analyze_screenshot).  Response bodies
are modelled as records of optional fields, mirroring dict.get with its
defaults; floats are modelled as rationals.
-/

/-- PokerAnalysis dataclass of the source. -/
structure PokerAnalysis where
  success : Bool
  hole_cards : List String
  community_cards : List String
  opponents : Int
  win_rate : ℚ
  lose_rate : ℚ
  tie_rate : ℚ
  our_hand_probabilities : List (String × ℚ)
  opponent_hand_probabilities : List (String × ℚ)
  error_message : Option String := none
  deriving DecidableEq, Repr

/-- PokerAnalysis.from_error: the failure shape every local or remote
error is mapped to. -/
def PokerAnalysis.from_error (message : String) : PokerAnalysis :=
  { success := false, hole_cards := [], community_cards := [], opponents := 0,
    win_rate := 0, lose_rate := 0, tie_rate := 0,
    our_hand_probabilities := [], opponent_hand_probabilities := [],
    error_message := some message }

/-- The data sub-dictionary of a successful API response; a missing key
is none. -/
structure RespData where
  hole_cards : Option (List String) := none
  community_cards : Option (List String) := none
  opponents : Option Int := none
  win_rate : Option ℚ := none
  lose_rate : Option ℚ := none
  tie_rate : Option ℚ := none
  our_hand_probabilities : Option (List (String × ℚ)) := none
  opponent_hand_probabilities : Option (List (String × ℚ)) := none
  deriving DecidableEq, Repr

/-- A parsed response body; a missing key is none.  The success field
holds a boolean when present, so dict.get of success with default False
is falsy exactly when the field is absent or false. -/
structure RespJson where
  success : Option Bool := none
  error : Option String := none
  message : Option String := none
  data : Option RespData := none
  deriving DecidableEq, Repr

/-- PokerAnalysis.from_api_response: a falsy success field yields the
from_error shape carrying the error field (default Unknown API error);
otherwise every field of the data sub-dictionary defaults when
absent. -/
def PokerAnalysis.from_api_response (data : RespJson) : PokerAnalysis :=
  if ¬ (data.success.getD false) then
    PokerAnalysis.from_error (data.error.getD "Unknown API error")
  else
    let result := data.data.getD {}
    { success := true,
      hole_cards := result.hole_cards.getD [],
      community_cards := result.community_cards.getD [],
      opponents := result.opponents.getD 0,
      win_rate := result.win_rate.getD 0,
      lose_rate := result.lose_rate.getD 0,
      tie_rate := result.tie_rate.getD 0,
      our_hand_probabilities := result.our_hand_probabilities.getD [],
      opponent_hand_probabilities := result.opponent_hand_probabilities.getD [],
      error_message := none }

/-- Python or on optional strings: the left operand wins unless it is
missing or empty (falsy). -/
def pyOr (a b : Option String) : Option String :=
  match a with
  | some s => if s = "" then b else some s
  | none => b

/-- Python or with a literal string fallback, which is always truthy. -/
def pyOrS (a : Option String) (s : String) : String :=
  match pyOr a (some s) with
  | some t => t
  | none => s

/-- Outcome of the HTTP round trip inside analyze_screenshot: a request
timeout, a requests-level exception, any other exception (JPEG encoding
included), or a response with a status code and a body whose JSON parse
either succeeds or raises with a message. -/
inductive HttpResult where
  | timeout
  | requestExc (msg : String)
  | otherExc (msg : String)
  | resp (status : Nat) (json : Except String RespJson)

/-- analyze_screenshot, after the screenshot is encoded: a non-200
response is mapped to from_error with the error or message field of the
body (or a synthesized status message); a 200 response goes through
from_api_response; timeouts and exceptions are mapped to from_error. -/
def analyze_screenshot (http : HttpResult) : PokerAnalysis :=
  match http with
  | HttpResult.resp status json =>
    if status ≠ 200 then
      let error_msg :=
        match json with
        | Except.ok j => pyOrS (pyOr j.error j.message) ("Status " ++ toString status)
        | Except.error _ => "API returned status " ++ toString status
      PokerAnalysis.from_error error_msg
    else
      match json with
      | Except.ok j => PokerAnalysis.from_api_response j
      | Except.error e => PokerAnalysis.from_error ("Error: " ++ e)
  | HttpResult.timeout => PokerAnalysis.from_error "API request timed out"
  | HttpResult.requestExc e => PokerAnalysis.from_error ("Network error: " ++ e)
  | HttpResult.otherExc e => PokerAnalysis.from_error ("Error: " ++ e)

/-
Scan loop (source: main, while body).  One tick: increment the
iteration counter, capture, map a missing screenshot to the capture
failure message and a present one through analyze_screenshot, store the
result for the renderer.
-/

/-- The per-session scan state of main. -/
structure ScanState where
  iteration : Nat
  lastAnalysis : PokerAnalysis
  opponents : Int
  deriving DecidableEq, Repr

/-- One iteration of the while body of main, with the capture outcome
and the HTTP outcome of that tick passed in as the environment. -/
def scanTick (s : ScanState) (screenshot : Option Image) (http : HttpResult) :
    ScanState :=
  let analysis :=
    match screenshot with
    | none => PokerAnalysis.from_error "Failed to capture window"
    | some _ => analyze_screenshot http
  { s with iteration := s.iteration + 1, lastAnalysis := analysis }

/-- A result the renderer can display: either a success or a carried
error message. -/
def displayable (a : PokerAnalysis) : Bool :=
  a.success || a.error_message.isSome

theorem displayable_from_error (m : String) :
    displayable (PokerAnalysis.from_error m) = true := rfl

theorem displayable_from_api_response (j : RespJson) :
    displayable (PokerAnalysis.from_api_response j) = true := by
  unfold PokerAnalysis.from_api_response
  by_cases h : j.success.getD false = true
  · rw [if_neg (by simp [h])]
    rfl
  · rw [if_pos (by simpa using h)]
    exact displayable_from_error _

theorem displayable_analyze (http : HttpResult) :
    displayable (analyze_screenshot http) = true := by
  rcases http with _ | e | e | ⟨status, json⟩
  · exact displayable_from_error _
  · exact displayable_from_error _
  · exact displayable_from_error _
  · simp only [analyze_screenshot]
    split_ifs with h
    · exact displayable_from_error _
    · rcases json with e | j
      · exact displayable_from_error _
      · exact displayable_from_api_response j

/-- Claim C3: the sleep duration at the end of a tick equals
max(0, T - p) for target interval T and processing time p; when p is at
least T the loop sleeps nothing and proceeds immediately; and every pass
through the loop body advances the iteration counter by exactly one, so
no tick is dropped. -/
theorem scan_loop_cadence (T p : ℚ) (s : ScanState) (shot : Option Image)
    (http : HttpResult) :
    tickSleep T p = max 0 (T - p) ∧
    (T ≤ p → tickSleep T p = 0) ∧
    (scanTick s shot http).iteration = s.iteration + 1 := by
  refine ⟨?_, ?_, ?_⟩
  · unfold tickSleep
    dsimp only
    split_ifs with h
    · rfl
    · have h0 : (0 : ℚ) ≤ max 0 (T - p) := le_max_left 0 (T - p)
      have hz : max 0 (T - p) = 0 := le_antisymm (not_lt.mp h) h0
      rw [hz]
  · intro hTp
    unfold tickSleep
    dsimp only
    have hm : max 0 (T - p) = 0 := max_eq_left (by linarith)
    rw [hm]
    simp
  · rfl

theorem scan_loop_cadence_witness :
    tickSleep 1 (5/2) = max 0 (1 - 5/2) ∧ tickSleep 1 (5/2) = 0 ∧
    (scanTick ⟨0, PokerAnalysis.from_error "Waiting for first scan...", 1⟩
      none HttpResult.timeout).iteration = 0 + 1 :=
  ⟨(scan_loop_cadence 1 (5/2)
      ⟨0, PokerAnalysis.from_error "Waiting for first scan...", 1⟩
      none HttpResult.timeout).1,
   (scan_loop_cadence 1 (5/2)
      ⟨0, PokerAnalysis.from_error "Waiting for first scan...", 1⟩
      none HttpResult.timeout).2.1 (by norm_num),
   (scan_loop_cadence 1 (5/2)
      ⟨0, PokerAnalysis.from_error "Waiting for first scan...", 1⟩
      none HttpResult.timeout).2.2⟩

/-- Claim C6: every tick is total and failure is soft.  Whatever the
capture and HTTP outcomes, the tick stores a displayable result (a
success or a carried error message), the iteration counter advances so
the loop continues, and a failed capture yields exactly the capture
failure message; nothing escapes the tick. -/
theorem scan_tick_soft_failure (s : ScanState) (shot : Option Image)
    (http : HttpResult) :
    displayable (scanTick s shot http).lastAnalysis = true ∧
    (scanTick s shot http).iteration = s.iteration + 1 ∧
    (shot = none →
      (scanTick s shot http).lastAnalysis =
        PokerAnalysis.from_error "Failed to capture window") := by
  refine ⟨?_, rfl, ?_⟩
  · unfold scanTick
    rcases shot with _ | img
    · exact displayable_from_error _
    · exact displayable_analyze http
  · intro h
    subst h
    rfl

theorem scan_tick_soft_failure_witness :
    displayable (scanTick ⟨3, PokerAnalysis.from_error "x", 2⟩ none
      HttpResult.timeout).lastAnalysis = true ∧
    (scanTick ⟨3, PokerAnalysis.from_error "x", 2⟩ none
      HttpResult.timeout).lastAnalysis =
      PokerAnalysis.from_error "Failed to capture window" :=
  ⟨(scan_tick_soft_failure ⟨3, PokerAnalysis.from_error "x", 2⟩ none
      HttpResult.timeout).1,
   (scan_tick_soft_failure ⟨3, PokerAnalysis.from_error "x", 2⟩ none
      HttpResult.timeout).2.2 rfl⟩

/-- The failure shape shared by every error result: success false, all
rates zero, empty card lists and probability mappings, zero opponents,
and a present error message. -/
def ErrorShape (a : PokerAnalysis) : Prop :=
  a.success = false ∧ a.hole_cards = [] ∧ a.community_cards = [] ∧
  a.opponents = 0 ∧ a.win_rate = 0 ∧ a.lose_rate = 0 ∧ a.tie_rate = 0 ∧
  a.our_hand_probabilities = [] ∧ a.opponent_hand_probabilities = [] ∧
  a.error_message.isSome = true

theorem errorShape_from_error (m : String) :
    ErrorShape (PokerAnalysis.from_error m) := by
  unfold ErrorShape PokerAnalysis.from_error
  simp

/-- Claim C7: the body with success false and error quota exceeded,
arriving in a 200 response, yields the failure result whose message is
exactly quota exceeded and whose win, tie and lose rates are all zero;
request timeouts and non-200 responses are mapped to the same failure
shape as a local capture failure. -/
theorem quota_exceeded_error (status : Nat) (json : Except String RespJson) :
    (analyze_screenshot (HttpResult.resp 200
        (Except.ok { success := some false, error := some "quota exceeded" })) =
      PokerAnalysis.from_error "quota exceeded" ∧
      (analyze_screenshot (HttpResult.resp 200
        (Except.ok { success := some false, error := some "quota exceeded" }))).error_message =
        some "quota exceeded" ∧
      (analyze_screenshot (HttpResult.resp 200
        (Except.ok { success := some false, error := some "quota exceeded" }))).win_rate = 0 ∧
      (analyze_screenshot (HttpResult.resp 200
        (Except.ok { success := some false, error := some "quota exceeded" }))).tie_rate = 0 ∧
      (analyze_screenshot (HttpResult.resp 200
        (Except.ok { success := some false, error := some "quota exceeded" }))).lose_rate = 0) ∧
    (status ≠ 200 → ErrorShape (analyze_screenshot (HttpResult.resp status json))) ∧
    ErrorShape (analyze_screenshot HttpResult.timeout) ∧
    ErrorShape (PokerAnalysis.from_error "Failed to capture window") := by
  refine ⟨⟨rfl, rfl, rfl, rfl, rfl⟩, ?_, errorShape_from_error _,
    errorShape_from_error _⟩
  intro h
  simp only [analyze_screenshot]
  rw [if_pos h]
  exact errorShape_from_error _

theorem quota_exceeded_error_witness :
    (403 : Nat) ≠ 200 ∧
    ErrorShape (analyze_screenshot (HttpResult.resp 403
      (Except.ok { error := some "quota exceeded" }))) :=
  ⟨by decide,
   (quota_exceeded_error 403
      (Except.ok { error := some "quota exceeded" })).2.1 (by decide)⟩

/-- Claim C10: constructing an analysis result from any parsed response
body is total and never raises: with the success field absent or false
the result is exactly from_error of the error field (defaulting to
Unknown API error); with success true the result is a success with no
error message, and each absent data field defaults to the empty list,
zero, or the empty mapping. -/
theorem from_api_response_total (j : RespJson) :
    (j.success.getD false = false →
      PokerAnalysis.from_api_response j =
        PokerAnalysis.from_error (j.error.getD "Unknown API error")) ∧
    (j.success.getD false = true →
      (PokerAnalysis.from_api_response j).success = true ∧
      (PokerAnalysis.from_api_response j).error_message = none ∧
      ((j.data.getD {}).hole_cards = none →
        (PokerAnalysis.from_api_response j).hole_cards = []) ∧
      ((j.data.getD {}).community_cards = none →
        (PokerAnalysis.from_api_response j).community_cards = []) ∧
      ((j.data.getD {}).opponents = none →
        (PokerAnalysis.from_api_response j).opponents = 0) ∧
      ((j.data.getD {}).win_rate = none →
        (PokerAnalysis.from_api_response j).win_rate = 0) ∧
      ((j.data.getD {}).lose_rate = none →
        (PokerAnalysis.from_api_response j).lose_rate = 0) ∧
      ((j.data.getD {}).tie_rate = none →
        (PokerAnalysis.from_api_response j).tie_rate = 0) ∧
      ((j.data.getD {}).our_hand_probabilities = none →
        (PokerAnalysis.from_api_response j).our_hand_probabilities = []) ∧
      ((j.data.getD {}).opponent_hand_probabilities = none →
        (PokerAnalysis.from_api_response j).opponent_hand_probabilities = [])) := by
  constructor
  · intro h
    unfold PokerAnalysis.from_api_response
    rw [if_pos (by simp [h])]
  · intro h
    unfold PokerAnalysis.from_api_response
    rw [if_neg (by simp [h])]
    refine ⟨rfl, rfl, ?_, ?_, ?_, ?_, ?_, ?_, ?_, ?_⟩ <;>
      · intro hf
        simp [hf]

theorem from_api_response_total_witness :
    (({} : RespJson).success.getD false = false ∧
      PokerAnalysis.from_api_response {} =
        PokerAnalysis.from_error "Unknown API error") ∧
    (({ success := some true } : RespJson).success.getD false = true ∧
      (PokerAnalysis.from_api_response { success := some true }).success = true ∧
      (PokerAnalysis.from_api_response { success := some true }).hole_cards = [] ∧
      (PokerAnalysis.from_api_response { success := some true }).win_rate = 0) :=
  ⟨⟨rfl, (from_api_response_total {}).1 rfl⟩,
   ⟨rfl, ((from_api_response_total { success := some true }).2 rfl).1,
    ((from_api_response_total { success := some true }).2 rfl).2.2.1 rfl,
    ((from_api_response_total { success := some true }).2 rfl).2.2.2.2.2.1 rfl⟩⟩

/-
Window enumeration (source: MacWindowManager.get_windows,
LinuxWindowManager.get_windows, LinuxWindowManager._detect_tool and
__init__).
-/

/-- One raw entry of CGWindowListCopyWindowInfo; a missing dictionary
key is none, and dict.get supplies the defaults the source uses. -/
structure QuartzWin where
  name : Option String := none
  owner : Option String := none
  boundsX : Option Int := none
  boundsY : Option Int := none
  boundsW : Option Int := none
  boundsH : Option Int := none
  number : Option Nat := none
  deriving DecidableEq, Repr

/-- The per-entry body of MacWindowManager.get_windows: skip entries
whose name and owner are both empty, skip entries with width or height
below 100, and build the WindowInfo with the owner-name title. -/
def mac_window_entry (win : QuartzWin) : Option WindowInfo :=
  let name := win.name.getD ""
  let owner := win.owner.getD ""
  if name = "" ∧ owner = "" then none
  else
    let width := win.boundsW.getD 0
    let height := win.boundsH.getD 0
    if width < 100 ∨ height < 100 then none
    else
      some { id := toString (win.number.getD 0),
             title := if name ≠ "" then owner ++ ": " ++ name else owner,
             x := win.boundsX.getD 0,
             y := win.boundsY.getD 0,
             width := width,
             height := height }

/-- MacWindowManager.get_windows over the enumerated entries. -/
def mac_get_windows (wins : List QuartzWin) : List WindowInfo :=
  wins.filterMap mac_window_entry

/-- Accumulate decimal digits; any non-digit character aborts, matching
a raised ValueError in the source. -/
def parse_int_core : List Char → Nat → Option Nat
  | [], acc => some acc
  | c :: rest, acc =>
    if c.isDigit then parse_int_core rest (acc * 10 + (c.toNat - 48))
    else none

/-- Python int() on one whitespace-split field: an optional minus sign
followed by decimal digits; anything else raises (none here). -/
def parse_int (s : String) : Option Int :=
  match s.data with
  | [] => none
  | '-' :: rest =>
    if rest = [] then none
    else (parse_int_core rest 0).map (fun n => -(n : Int))
  | l => (parse_int_core l 0).map (fun n => (n : Int))

/-- Python str.strip(): drop leading and trailing whitespace. -/
def py_strip (s : String) : String :=
  String.mk
    (((s.data.dropWhile Char.isWhitespace).reverse.dropWhile
      Char.isWhitespace).reverse)

/-- The per-line body of LinuxWindowManager.get_windows, applied to one
wmctrl -l -G output line already split on whitespace with maxsplit 8.
Lines with fewer than 8 fields are skipped; sticky windows (desktop -1)
and blank titles are skipped; non-integer geometry fields are skipped.
No size filter of any kind is applied on this platform. -/
def linux_window_entry (parts : List String) : Option WindowInfo :=
  match parts with
  | wid :: desktop :: x :: y :: w :: h :: _hostname :: title_parts =>
    if title_parts.length ≥ 1 then
      let title :=
        if title_parts ≠ [] then String.intercalate " " title_parts
        else "(unnamed)"
      if desktop = "-1" ∨ py_strip title = "" then none
      else
        match parse_int x, parse_int y, parse_int w, parse_int h with
        | some xi, some yi, some wi, some hi =>
          some { id := wid, title := title, x := xi, y := yi,
                 width := wi, height := hi }
        | _, _, _, _ => none
    else none
  | _ => none

/-- LinuxWindowManager.get_windows over the split output lines. -/
def linux_get_windows (lines : List (List String)) : List WindowInfo :=
  lines.filterMap linux_window_entry

/-- LinuxWindowManager._detect_tool: probe wmctrl then xdotool, return
the first that runs, none when neither does. -/
def detect_tool (wmctrlOk xdotoolOk : Bool) : Option String :=
  if wmctrlOk then some "wmctrl"
  else if xdotoolOk then some "xdotool"
  else none

/-- LinuxWindowManager.__init__: keep the detected tool, or report the
error and terminate the process with exit code 1 when neither tool is
available. -/
def linuxWM_init (wmctrlOk xdotoolOk : Bool) : Except Nat String :=
  match detect_tool wmctrlOk xdotoolOk with
  | some tool => Except.ok tool
  | none => Except.error 1

/-- MacWindowManager.get_windows including its ImportError handler: with
the Quartz bindings absent the process terminates with exit code 1. -/
def mac_get_windows_run (quartzAvailable : Bool) (wins : List QuartzWin) :
    Except Nat (List WindowInfo) :=
  if quartzAvailable then Except.ok (mac_get_windows wins)
  else Except.error 1

/-- The Linux startup path of main up to window enumeration: construct
the window manager (which may terminate the process) and only then
enumerate; the scan loop lies beyond and is never reached on the error
path. -/
def linux_main_startup (wmctrlOk xdotoolOk : Bool)
    (lines : List (List String)) : Except Nat (List WindowInfo) :=
  match linuxWM_init wmctrlOk xdotoolOk with
  | Except.error c => Except.error c
  | Except.ok _tool => Except.ok (linux_get_windows lines)

/-- Claim C5 counterexample: on Linux there is no size filter, so a
99 by 99 window is listed, contradicting the claim that on every
platform windows below 100 in either dimension are excluded. -/
theorem linux_no_size_filter_counterexample :
    linux_get_windows [["0x1", "0", "10", "10", "99", "99", "host", "Poker"]] =
      [{ id := "0x1", title := "Poker", x := 10, y := 10,
         width := 99, height := 99 }] ∧
    (99 : Int) < 100 := by
  constructor
  · rfl
  · decide

/-- Claim C5 as amended: the Mac enumeration excludes every window with
width or height below 100 and every window with neither name nor owner,
with the stated boundary behavior (99 excluded, 100 by 100 included);
the Linux enumeration applies no size threshold and lists a 99 by 99
window. -/
theorem listWindows_filter_amended :
    (∀ q : QuartzWin, ∀ w : WindowInfo, mac_window_entry q = some w →
      100 ≤ w.width ∧ 100 ≤ w.height) ∧
    (∀ q : QuartzWin, q.name.getD "" = "" → q.owner.getD "" = "" →
      mac_window_entry q = none) ∧
    mac_window_entry
      { name := some "Table", owner := some "Poker",
        boundsW := some 99, boundsH := some 100 } = none ∧
    mac_window_entry
      { name := some "Table", owner := some "Poker",
        boundsW := some 100, boundsH := some 99 } = none ∧
    (mac_window_entry
      { name := some "Table", owner := some "Poker",
        boundsW := some 100, boundsH := some 100 }).isSome = true ∧
    (linux_get_windows
      [["0x2", "0", "0", "0", "99", "99", "host", "Table"]]).length = 1 := by
  refine ⟨?_, ?_, rfl, rfl, rfl, rfl⟩
  · intro q w h
    simp only [mac_window_entry] at h
    by_cases hname : q.name.getD "" = "" ∧ q.owner.getD "" = ""
    · rw [if_pos hname] at h
      cases h
    · rw [if_neg hname] at h
      by_cases hsize : q.boundsW.getD 0 < 100 ∨ q.boundsH.getD 0 < 100
      · rw [if_pos hsize] at h
        cases h
      · rw [if_neg hsize] at h
        push_neg at hsize
        rw [Option.some_inj] at h
        subst h
        exact ⟨hsize.1, hsize.2⟩
  · intro q hn ho
    simp only [mac_window_entry]
    rw [if_pos ⟨hn, ho⟩]

theorem listWindows_filter_amended_witness :
    mac_window_entry
      { name := some "Table", owner := some "Poker",
        boundsW := some 640, boundsH := some 480, boundsX := some 5,
        boundsY := some 6, number := some 7 } =
      some { id := "7", title := "Poker: Table", x := 5, y := 6,
             width := 640, height := 480 } ∧
    (100 ≤ (640 : Int) ∧ 100 ≤ (480 : Int)) ∧
    mac_window_entry { name := some "", owner := some "" } = none :=
  ⟨rfl,
   listWindows_filter_amended.1
     { name := some "Table", owner := some "Poker", boundsW := some 640,
       boundsH := some 480, boundsX := some 5, boundsY := some 6,
       number := some 7 }
     { id := "7", title := "Poker: Table", x := 5, y := 6,
       width := 640, height := 480 } rfl,
   listWindows_filter_amended.2.1 { name := some "", owner := some "" }
     rfl rfl⟩

/-- Claim C9: with no enumeration mechanism available the startup is
fatal.  On Linux, with neither wmctrl nor xdotool runnable, constructing
the window manager terminates the process with exit code 1 and the main
startup path never reaches enumeration or the scan loop; on Mac, with
the Quartz bindings absent, enumeration terminates the process with exit
code 1. -/
theorem fatal_startup_no_mechanism (wmctrlOk xdotoolOk quartzAvailable : Bool)
    (wins : List QuartzWin) (lines : List (List String)) :
    (wmctrlOk = false → xdotoolOk = false →
      detect_tool wmctrlOk xdotoolOk = none ∧
      linuxWM_init wmctrlOk xdotoolOk = Except.error 1 ∧
      linux_main_startup wmctrlOk xdotoolOk lines = Except.error 1) ∧
    (quartzAvailable = false →
      mac_get_windows_run quartzAvailable wins = Except.error 1) := by
  constructor
  · intro h1 h2
    subst h1
    subst h2
    exact ⟨rfl, rfl, rfl⟩
  · intro h
    subst h
    rfl

theorem fatal_startup_no_mechanism_witness :
    linuxWM_init false false = Except.error 1 ∧
    linux_main_startup false false [["0x1", "0", "0", "0", "500", "400",
      "host", "Poker"]] = Except.error 1 ∧
    mac_get_windows_run false [{ name := some "Table" }] = Except.error 1 :=
  ⟨(fatal_startup_no_mechanism false false false [{ name := some "Table" }]
      [["0x1", "0", "0", "0", "500", "400", "host", "Poker"]]).1
      rfl rfl |>.2.1,
   (fatal_startup_no_mechanism false false false [{ name := some "Table" }]
      [["0x1", "0", "0", "0", "500", "400", "host", "Poker"]]).1
      rfl rfl |>.2.2,
   (fatal_startup_no_mechanism false false false [{ name := some "Table" }]
      [["0x1", "0", "0", "0", "500", "400", "host", "Poker"]]).2 rfl⟩
